import Mathlib

set_option maxRecDepth 100000

/-!
Shallow embedding of the NoteGraphee backend (src/backend/server.js).

The server is an Express app whose core is the request-orchestration layer
between an HTTP upload endpoint and a local Ollama inference backend.  All
external effects (network calls to Ollama, the `sharp` image pipeline,
filesystem reads) are modelled by a `World` oracle fixing each effect's
outcome, and every modelled operation additionally returns the list of
file/network events it performed, so resource-lifecycle properties can be
stated about the event trace.
-/

namespace NoteGraphee

/-- A JavaScript `Error` value: a message plus the optional `code` property
(`ECONNREFUSED`, `ETIMEDOUT`, ...) that axios attaches to transport errors.
Errors constructed by `new Error(msg)` in server.js carry no code. -/
structure JsError where
  message : String
  code : Option String
deriving DecidableEq, Repr

/-- One entry of the Ollama `/api/tags` model listing (only the `name`
field is consumed by server.js). -/
structure OllamaModel where
  name : String
deriving DecidableEq, Repr

/-- Oracle fixing the outcome of every external effect during one
`callGemma3Vision` invocation. -/
structure World where
  /-- Outcome of the health check's `GET /api/tags` (5 s timeout):
  `none` = network error, `some s` = HTTP status `s`. -/
  healthStatus : Option Nat
  /-- Outcome of the availability check's `GET /api/tags`: `none` =
  network error; `some none` = body without a `models` field
  (`response.data.models || []`); `some (some l)` = model list `l`. -/
  tagsResponse : Option (Option (List OllamaModel))
  /-- Whether the `sharp` resize/re-encode pipeline succeeds. -/
  sharpOk : Bool
  /-- Whether `fs.readFile` on the final image path succeeds. -/
  readOk : Bool
  /-- Message of the `fs.readFile` error when `readOk = false`. -/
  readErrMsg : String
  /-- Base64 contents produced when the read succeeds. -/
  imageB64 : String
  /-- Outcome of `POST /api/generate`: `.error e` = axios throws `e`;
  `.ok none` = 2xx response whose body lacks a truthy `response` field;
  `.ok (some t)` = body with `response = t`. -/
  generateResult : Except JsError (Option String)

/-- Observable file/network events, in program order. -/
inductive Event where
  /-- A file is written at path `p` (the `sharp` output, or multer staging). -/
  | createFile (p : String)
  /-- `fs.readFile` is invoked on path `p`. -/
  | readFile (p : String)
  /-- `fs.unlink` is invoked on path `p` (success or not: `cleanupFile`
  and the in-function cleanup both swallow deletion failures). -/
  | unlink (p : String)
  /-- `POST /api/generate` is issued carrying prompt `prompt`. -/
  | generateCall (prompt : String)
deriving DecidableEq, Repr

/-- Default `GEMMA_MODEL` (server.js:20); no environment override modelled. -/
def GEMMA_MODEL : String := "gemma3:4b"

/-- Default `MAX_FILE_SIZE`, 16 MiB (server.js:16). -/
def MAX_FILE_SIZE : Nat := 16 * 1024 * 1024

/-- The `ALLOWED_EXTENSIONS` list (server.js:23). -/
def ALLOWED_EXTENSIONS : List String := [".png", ".jpg", ".jpeg", ".gif", ".webp"]

/-- The default analysis prompt (server.js:112, 270, 320). -/
def DEFAULT_PROMPT : String := "Analyze this image and provide a detailed summary"

/-- JavaScript `s.includes(sub)`: substring containment. -/
def jsIncludes (s sub : String) : Bool := decide (sub.data <:+: s.data)

/-- JavaScript `s.split(sep)[0]` for a one-character separator: the prefix
of `s` before the first `:` (the whole of `s` when no `:` occurs). -/
def splitColonHead (s : String) : String := ⟨s.data.takeWhile (fun c => c ≠ ':')⟩

/-- Translation of `checkOllamaHealth` (server.js:93-100): `GET /api/tags` with a 5 s
timeout; `true` iff the status is 200, any error yields `false`. -/
def checkOllamaHealth (w : World) : Bool :=
  match w.healthStatus with
  | some status => status == 200
  | none => false

/-- Translation of `checkModelAvailability` (server.js:102-110): fetches the model
listing, defaults a missing `models` field to `[]`, and tests
`models.some(model => model.name.includes(modelName.split(':')[0]))`;
any error yields `false`. -/
def checkModelAvailability (w : World) (modelName : String) : Bool :=
  match w.tagsResponse with
  | none => false
  | some data =>
      let models := data.getD []
      models.any fun model => jsIncludes model.name (splitColonHead modelName)

/-- Translation of `optimizeImage` (server.js:76-91): the `sharp` pipeline writes the
re-encoded copy to `outputPath` and returns it; on any failure a warning
is logged and the original `inputPath` is returned, with no file written.
(The `maxWidth`/quality parameters do not affect the modelled outcome.) -/
def optimizeImage (w : World) (inputPath outputPath : String) : String × List Event :=
  if w.sharpOk then (outputPath, [Event.createFile outputPath])
  else (inputPath, [])

/-- Translation of `convertImageToBase64` (server.js:67-74): reads the file and returns
its base64 encoding; a read failure is rethrown as a plain `Error`
wrapping the message (the original error code is discarded). -/
def convertImageToBase64 (w : World) (filePath : String) :
    Except JsError String × List Event :=
  if w.readOk then (.ok w.imageB64, [Event.readFile filePath])
  else (.error ⟨"Failed to read image file: " ++ w.readErrMsg, none⟩,
        [Event.readFile filePath])

/-- The `try` body of `callGemma3Vision` (server.js:113-173): health
check, availability check, optimize, base64-encode, `POST /api/generate`,
cleanup of the optimized copy (only after a non-throwing generate call),
then the `response.data.response` validity check. -/
def callGemma3VisionBody (w : World) (imagePath prompt : String) :
    Except JsError String × List Event :=
  if !checkOllamaHealth w then
    (.error ⟨"Ollama server is not running. Please start Ollama with: ollama serve",
      none⟩, [])
  else if !checkModelAvailability w GEMMA_MODEL then
    (.error ⟨"Model " ++ GEMMA_MODEL ++ " not found. Please install with: ollama pull "
      ++ GEMMA_MODEL, none⟩, [])
  else
    let optimizedPath := imagePath ++ "_optimized.jpg"
    let (finalImagePath, ev1) := optimizeImage w imagePath optimizedPath
    let (b64, ev2) := convertImageToBase64 w finalImagePath
    match b64 with
    | .error e => (.error e, ev1 ++ ev2)
    | .ok _imageBase64 =>
      let ev3 := [Event.generateCall prompt]
      match w.generateResult with
      | .error e => (.error e, ev1 ++ ev2 ++ ev3)
      | .ok dataResponse =>
        let ev4 := if finalImagePath ≠ imagePath then [Event.unlink finalImagePath] else []
        match dataResponse with
        | some text => (.ok text, ev1 ++ ev2 ++ ev3 ++ ev4)
        | none => (.error ⟨"Invalid response from Ollama", none⟩, ev1 ++ ev2 ++ ev3 ++ ev4)

/-- The `catch` clause of `callGemma3Vision` (server.js:175-183): maps
`ECONNREFUSED`/`ETIMEDOUT` codes to fixed messages and wraps every other
caught error (including the plain errors thrown inside the `try` body)
as `Gemma3 analysis failed: <message>`. -/
def gemmaCatch (e : JsError) : JsError :=
  if e.code = some "ECONNREFUSED" then
    ⟨"Cannot connect to Ollama. Make sure Ollama is running on port 11434", none⟩
  else if e.code = some "ETIMEDOUT" then
    ⟨"Analysis timed out. Try with a smaller image or simpler prompt", none⟩
  else
    ⟨"Gemma3 analysis failed: " ++ e.message, none⟩

/-- Translation of `callGemma3Vision` (server.js:112-184): the `try` body with every
thrown error routed through the `catch` mapping. -/
def callGemma3Vision (w : World) (imagePath prompt : String) :
    Except JsError String × List Event :=
  match callGemma3VisionBody w imagePath prompt with
  | (.ok text, tr) => (.ok text, tr)
  | (.error e, tr) => (.error (gemmaCatch e), tr)

/-- An uploaded file as multer hands it to a route handler: staged path,
original client-side filename, byte size. -/
structure UploadedFile where
  path : String
  originalname : String
  size : Nat
deriving DecidableEq, Repr

/-- The `||` fallback applied to `req.body.prompt` (server.js:270, 320):
an absent or empty-string prompt (the only falsy strings) is replaced by
the default; every other string, including whitespace-only ones, is kept. -/
def promptOrDefault (p : Option String) : String :=
  match p with
  | none => DEFAULT_PROMPT
  | some s => if s = "" then DEFAULT_PROMPT else s

/-- The JSON response of `POST /analyze-image`, with the HTTP status and
the literal `success` flag the handler writes. -/
inductive SingleResponse where
  | ok (success : Bool) (summary filename : String) (fileSize : Nat)
  | err (status : Nat) (message : String)
deriving DecidableEq, Repr

/-- The `POST /analyze-image` handler (server.js:258-304): 400 when no
file was uploaded; otherwise analyze and answer 200/`success:true`, or
500 with the error's message; the `finally` always unlinks the staged
file once `filePath` was assigned. -/
def analyzeImage (w : World) (reqFile : Option UploadedFile)
    (reqPrompt : Option String) : SingleResponse × List Event :=
  match reqFile with
  | none => (.err 400 "No image file provided", [])
  | some file =>
    let prompt := promptOrDefault reqPrompt
    let (result, tr) := callGemma3Vision w file.path prompt
    match result with
    | .ok summary =>
        (.ok true summary file.originalname file.size, tr ++ [Event.unlink file.path])
    | .error e => (.err 500 e.message, tr ++ [Event.unlink file.path])

/-- One element of the `results` array built by `POST /batch-analyze`
(server.js:332-345): success entries carry a summary, failure entries the
caught error's message. -/
structure BatchItemResult where
  success : Bool
  filename : String
  summary : Option String
  error : Option String
deriving DecidableEq, Repr

/-- The `summary` aggregate of the batch response (server.js:358-362). -/
structure BatchSummary where
  total : Nat
  successful : Nat
  failed : Nat
deriving DecidableEq, Repr

/-- The JSON response of `POST /batch-analyze`, with HTTP status and the
literal `success` flag written at server.js:356. -/
inductive BatchResponse where
  | ok (success : Bool) (results : List BatchItemResult) (summary : BatchSummary)
  | err (status : Nat) (message : String)
deriving DecidableEq, Repr

/-- HTTP status of a batch response: `res.json` answers 200 unless
`res.status` was called first. -/
def BatchResponse.status : BatchResponse → Nat
  | .ok _ _ _ => 200
  | .err s _ => s

/-- One iteration of the batch loop (server.js:322-350): analyze the
file, record a success or failure entry, and in the `finally` unlink the
staged file before the next iteration starts. -/
def processItem (w : World) (prompt : String) (file : UploadedFile) :
    BatchItemResult × List Event :=
  let (result, tr) := callGemma3Vision w file.path prompt
  match result with
  | .ok summary =>
      (⟨true, file.originalname, some summary, none⟩, tr ++ [Event.unlink file.path])
  | .error e =>
      (⟨false, file.originalname, none, some e.message⟩, tr ++ [Event.unlink file.path])

/-- The batch loop over the uploaded files, strictly in submission order,
each item paired with the oracle for its own `callGemma3Vision` call. -/
def batchLoop (items : List (UploadedFile × World)) (prompt : String) :
    List BatchItemResult × List Event :=
  match items with
  | [] => ([], [])
  | (file, w) :: rest =>
    let (r, tr) := processItem w prompt file
    let (rs, trs) := batchLoop rest prompt
    (r :: rs, tr ++ trs)

/-- The `POST /batch-analyze` handler (server.js:307-379): 400 when no
files were uploaded; otherwise run the loop and answer 200 with
`success:true`, `results`, and tallied aggregate counts. -/
def batchAnalyze (items : List (UploadedFile × World)) (reqPrompt : Option String) :
    BatchResponse × List Event :=
  match items with
  | [] => (.err 400 "No image files provided", [])
  | _ :: _ =>
    let prompt := promptOrDefault reqPrompt
    let (results, tr) := batchLoop items prompt
    let successCount := (results.filter (·.success)).length
    (.ok true results ⟨items.length, successCount, items.length - successCount⟩, tr)

/-! ### Upload ingest (multer configuration and error middleware) -/

/-- JavaScript `s.toLowerCase()` on the ASCII extension strings the
upload filter compares. -/
def lowerString (s : String) : String := ⟨s.data.map Char.toLower⟩

/-- Behaviour of `path.extname(name)` as server.js uses it: the final `.`-suffix of the
basename, empty when the basename has no dot or only a leading dot. -/
def extname (filename : String) : String :=
  let base := ((filename.data.reverse.takeWhile (fun c => c ≠ '/')).reverse)
  let afterDotRev := base.reverse.takeWhile (fun c => c ≠ '.')
  if afterDotRev.length = base.length then ""
  else if afterDotRev.length + 1 = base.length then ""
  else ⟨'.' :: afterDotRev.reverse⟩

/-- Outcome of the multer upload middleware for one candidate file. -/
inductive UploadOutcome where
  /-- The `fileFilter` rejected the extension with a plain `Error`. -/
  | fileFilterError (message : String)
  /-- Multer raised a `MulterError` with the given code
  (`LIMIT_FILE_SIZE` for the `limits.fileSize` bound). -/
  | multerError (code : String)
  /-- The file was accepted and staged. -/
  | accepted (file : UploadedFile)
deriving DecidableEq, Repr

/-- Modelled from the spec: multer's storage engine is a library
dependency whose code is not part of this repository; per the spec (§4.1)
validation runs before any storage I/O, so a rejected file stages no
artifact.  The configuration it interprets is server.js:51-64: the
`fileFilter` accepts exactly the extensions in `ALLOWED_EXTENSIONS`
(lower-cased `path.extname` of the original name) and `limits.fileSize`
is `MAX_FILE_SIZE`. -/
def uploadSingle (originalname : String) (size : Nat) (stagedPath : String) :
    UploadOutcome × List Event :=
  let ext := lowerString (extname originalname)
  if ALLOWED_EXTENSIONS.contains ext then
    if size ≤ MAX_FILE_SIZE then
      (.accepted ⟨stagedPath, originalname, size⟩, [Event.createFile stagedPath])
    else (.multerError "LIMIT_FILE_SIZE", [])
  else
    (.fileFilterError ("File type not allowed. Use: " ++
      String.intercalate ", " ALLOWED_EXTENSIONS), [])

/-- An error reaching the Express error-handling middleware: either a
`MulterError` (code and message) or a plain `Error`. -/
inductive MiddlewareError where
  | multer (code : String) (message : String)
  | plain (message : String)
deriving DecidableEq, Repr

/-- The error-handling middleware (server.js:395-413), in production
mode: `LIMIT_FILE_SIZE` and other `MulterError`s answer 400, anything
else answers a generic 500. -/
def errorMiddleware (e : MiddlewareError) : Nat × String :=
  match e with
  | .multer code msg =>
    if code = "LIMIT_FILE_SIZE" then
      (400, "File too large. Maximum size is " ++ toString (MAX_FILE_SIZE / 1024 / 1024) ++ "MB")
    else (400, "Upload error: " ++ msg)
  | .plain _ => (500, "Internal server error")

/-- The upload middleware composed with the error middleware and the
`POST /analyze-image` handler: a rejected file is routed to the error
middleware, an accepted one to the handler. -/
def analyzeImageRequest (w : World) (originalname : String) (size : Nat)
    (stagedPath : String) (reqPrompt : Option String) :
    SingleResponse × List Event :=
  match uploadSingle originalname size stagedPath with
  | (.multerError code, ev) =>
      let (st, msg) := errorMiddleware (.multer code "File too large")
      (.err st msg, ev)
  | (.fileFilterError msg, ev) =>
      let (st, m) := errorMiddleware (.plain msg)
      (.err st m, ev)
  | (.accepted file, ev) =>
      let (resp, tr) := analyzeImage w (some file) reqPrompt
      (resp, ev ++ tr)

/-! ### The spec's error taxonomy -/

/-- The error classes of the spec's taxonomy (§7). -/
inductive ErrKind where
  | validation
  | serviceUnavailable
  | modelNotFound
  | timeout
  | processing
deriving DecidableEq, Repr

/-- Modelled from the spec: the source has no error classes, only message
strings; the spec's taxonomy (§4.4, §7) is recovered by classifying a
message by the condition it reports. -/
def errKindOfMessage (m : String) : ErrKind :=
  if jsIncludes m "File too large" then .validation
  else if jsIncludes m "File type not allowed" then .validation
  else if jsIncludes m "No image" then .validation
  else if jsIncludes m "Ollama server is not running" then .serviceUnavailable
  else if jsIncludes m "Cannot connect to Ollama" then .serviceUnavailable
  else if jsIncludes m "not found. Please install" then .modelNotFound
  else if jsIncludes m "timed out" then .timeout
  else .processing

/-- The availability predicate as the spec words it (§4.1 of the claim
list / design note §9): some listed entry matches the requested model's
base name **as a prefix**.  Spec-words definition, for comparison with
`checkModelAvailability` as translated from the source. -/
def checkModelAvailabilitySpecPrefix (w : World) (modelName : String) : Bool :=
  match w.tagsResponse with
  | none => false
  | some data =>
      let models := data.getD []
      models.any fun model => decide ((splitColonHead modelName).data <+: model.name.data)

/-- The `models` list the availability check works over: empty on network
failure or a body without a `models` field. -/
def worldModels (w : World) : List OllamaModel :=
  match w.tagsResponse with
  | none => []
  | some data => data.getD []

/-! ### Concrete fixtures for witnesses and counterexamples -/

/-- A run where every external effect succeeds. -/
def okWorld : World :=
  { healthStatus := some 200
    tagsResponse := some (some [⟨"gemma3:4b"⟩])
    sharpOk := true
    readOk := true
    readErrMsg := ""
    imageB64 := "aW1n"
    generateResult := .ok (some "A handwritten shopping list.") }

/-- A run where preprocessing succeeds but the generate call times out. -/
def timeoutWorld : World :=
  { okWorld with generateResult := .error ⟨"timeout of 120000ms exceeded", some "ETIMEDOUT"⟩ }

/-- A run where the Ollama server is down (health check network error). -/
def downWorld : World :=
  { okWorld with healthStatus := none, tagsResponse := none }

/-- A run where Ollama is up but the model listing is empty. -/
def noModelWorld : World :=
  { okWorld with tagsResponse := some (some []) }

/-- A staged upload fixture. -/
def file1 : UploadedFile := ⟨"./uploads/u1.png", "note.png", 2048⟩

/-! ### Claims -/

/-- C1: the claim says every temporary file created for an analysis item —
the staged upload and any derived `_optimized.jpg` copy — is released
exactly once on every code path.  The code violates this: when
preprocessing succeeds and the generate call then fails (here a timeout),
the cleanup at server.js:161-167 is skipped and the route's `finally` only
unlinks the staged upload, so the `_optimized.jpg` copy is created but
never released.  This theorem evaluates the single-image pipeline at such
a run: the optimized copy is created, no unlink for it ever occurs, and
only the staged upload is unlinked (exactly once). -/
theorem optimized_copy_leaked_on_inference_failure :
    (analyzeImage timeoutWorld (some file1) none).1 =
      .err 500 "Analysis timed out. Try with a smaller image or simpler prompt" ∧
    Event.createFile "./uploads/u1.png_optimized.jpg"
      ∈ (analyzeImage timeoutWorld (some file1) none).2 ∧
    Event.unlink "./uploads/u1.png_optimized.jpg"
      ∉ (analyzeImage timeoutWorld (some file1) none).2 ∧
    (analyzeImage timeoutWorld (some file1) none).2.count (Event.unlink "./uploads/u1.png")
      = 1 := by
  decide

/-- C2: if the liveness check fails, the generate call is never issued and
the resulting error reports the service-unavailable condition; if liveness
passes but the model-availability check fails, the generate call is never
issued and the error reports the model-not-found condition. -/
theorem liveness_and_availability_short_circuit (w : World) (p pr : String) :
    (checkOllamaHealth w = false →
      (∀ q, Event.generateCall q ∉ (callGemma3Vision w p pr).2) ∧
      (callGemma3Vision w p pr).1 = .error
        ⟨"Gemma3 analysis failed: Ollama server is not running. Please start Ollama with: ollama serve",
         none⟩ ∧
      errKindOfMessage
        "Gemma3 analysis failed: Ollama server is not running. Please start Ollama with: ollama serve"
        = .serviceUnavailable) ∧
    (checkOllamaHealth w = true → checkModelAvailability w GEMMA_MODEL = false →
      (∀ q, Event.generateCall q ∉ (callGemma3Vision w p pr).2) ∧
      (callGemma3Vision w p pr).1 = .error
        ⟨"Gemma3 analysis failed: Model gemma3:4b not found. Please install with: ollama pull gemma3:4b",
         none⟩ ∧
      errKindOfMessage
        "Gemma3 analysis failed: Model gemma3:4b not found. Please install with: ollama pull gemma3:4b"
        = .modelNotFound) := by
  constructor
  · intro h
    refine ⟨?_, ?_, by decide⟩
    · intro q
      simp [callGemma3Vision, callGemma3VisionBody, h]
    · simp [callGemma3Vision, callGemma3VisionBody, h]
      decide
  · intro h1 h2
    refine ⟨?_, ?_, by decide⟩
    · intro q
      simp [callGemma3Vision, callGemma3VisionBody, h1, h2]
    · simp [callGemma3Vision, callGemma3VisionBody, h1, h2]
      decide

/-- Witness for C2 at concrete runs: the Ollama-down world takes the
service-unavailable branch, the empty-model-listing world the
model-not-found branch. -/
theorem liveness_and_availability_short_circuit_witness :
    ((∀ q, Event.generateCall q ∉ (callGemma3Vision downWorld "./uploads/u1.png" DEFAULT_PROMPT).2) ∧
      (callGemma3Vision downWorld "./uploads/u1.png" DEFAULT_PROMPT).1 = .error
        ⟨"Gemma3 analysis failed: Ollama server is not running. Please start Ollama with: ollama serve",
         none⟩ ∧
      errKindOfMessage
        "Gemma3 analysis failed: Ollama server is not running. Please start Ollama with: ollama serve"
        = .serviceUnavailable) ∧
    ((∀ q, Event.generateCall q ∉ (callGemma3Vision noModelWorld "./uploads/u1.png" DEFAULT_PROMPT).2) ∧
      (callGemma3Vision noModelWorld "./uploads/u1.png" DEFAULT_PROMPT).1 = .error
        ⟨"Gemma3 analysis failed: Model gemma3:4b not found. Please install with: ollama pull gemma3:4b",
         none⟩ ∧
      errKindOfMessage
        "Gemma3 analysis failed: Model gemma3:4b not found. Please install with: ollama pull gemma3:4b"
        = .modelNotFound) :=
  ⟨(liveness_and_availability_short_circuit downWorld "./uploads/u1.png" DEFAULT_PROMPT).1
      (by decide),
   (liveness_and_availability_short_circuit noModelWorld "./uploads/u1.png" DEFAULT_PROMPT).2
      (by decide) (by decide)⟩

/-- C5: when the `sharp` pipeline fails for any internal reason,
`optimizeImage` returns the original source path unchanged (writing no
file, throwing nothing), and the inference pipeline then reads the
original image bytes for the generate payload. -/
theorem optimize_failure_falls_back_to_original (w : World)
    (inPath outPath prompt : String) (hsharp : w.sharpOk = false) :
    optimizeImage w inPath outPath = (inPath, []) ∧
    (checkOllamaHealth w = true → checkModelAvailability w GEMMA_MODEL = true →
      Event.readFile inPath ∈ (callGemma3Vision w inPath prompt).2) := by
  constructor
  · simp [optimizeImage, hsharp]
  · intro h1 h2
    cases hr : w.readOk <;>
      rcases hg : w.generateResult with e | d <;>
        first
          | (cases d <;>
              simp [callGemma3Vision, callGemma3VisionBody, optimizeImage,
                convertImageToBase64, h1, h2, hsharp, hr, hg])
          | simp [callGemma3Vision, callGemma3VisionBody, optimizeImage,
              convertImageToBase64, h1, h2, hsharp, hr, hg]

/-- Witness for C5: a run whose `sharp` pipeline fails but whose checks
pass; preprocessing falls back and the original path is read. -/
theorem optimize_failure_falls_back_to_original_witness :
    optimizeImage { okWorld with sharpOk := false } "./uploads/u1.png"
        "./uploads/u1.png_optimized.jpg" = ("./uploads/u1.png", []) ∧
    Event.readFile "./uploads/u1.png"
      ∈ (callGemma3Vision { okWorld with sharpOk := false } "./uploads/u1.png"
          DEFAULT_PROMPT).2 :=
  ⟨(optimize_failure_falls_back_to_original { okWorld with sharpOk := false }
      "./uploads/u1.png" "./uploads/u1.png_optimized.jpg" DEFAULT_PROMPT rfl).1,
   (optimize_failure_falls_back_to_original { okWorld with sharpOk := false }
      "./uploads/u1.png" "./uploads/u1.png_optimized.jpg" DEFAULT_PROMPT rfl).2
      (by decide) (by decide)⟩

/-- C6: once the per-call checks pass and the image was read, the caught
generate-call failure is mapped to the fixed taxonomy: `ECONNREFUSED`
yields the backend-not-reachable message, `ETIMEDOUT` the analysis-timed-
out message, a response body without a usable `response` field the
invalid-response message, and any other transport error the generic
wrapper around the underlying message. -/
theorem inference_error_taxonomy (w : World) (p pr : String)
    (hh : checkOllamaHealth w = true)
    (ha : checkModelAvailability w GEMMA_MODEL = true)
    (hr : w.readOk = true) :
    (∀ e, w.generateResult = .error e → e.code = some "ECONNREFUSED" →
      (callGemma3Vision w p pr).1 = .error
        ⟨"Cannot connect to Ollama. Make sure Ollama is running on port 11434", none⟩ ∧
      errKindOfMessage "Cannot connect to Ollama. Make sure Ollama is running on port 11434"
        = .serviceUnavailable) ∧
    (∀ e, w.generateResult = .error e → e.code = some "ETIMEDOUT" →
      (callGemma3Vision w p pr).1 = .error
        ⟨"Analysis timed out. Try with a smaller image or simpler prompt", none⟩ ∧
      errKindOfMessage "Analysis timed out. Try with a smaller image or simpler prompt"
        = .timeout) ∧
    (w.generateResult = .ok none →
      (callGemma3Vision w p pr).1 = .error
        ⟨"Gemma3 analysis failed: Invalid response from Ollama", none⟩ ∧
      errKindOfMessage "Gemma3 analysis failed: Invalid response from Ollama"
        = .processing) ∧
    (∀ e, w.generateResult = .error e → e.code ≠ some "ECONNREFUSED" →
      e.code ≠ some "ETIMEDOUT" →
      (callGemma3Vision w p pr).1 = .error
        ⟨"Gemma3 analysis failed: " ++ e.message, none⟩) := by
  refine ⟨?_, ?_, ?_, ?_⟩
  · intro e hg hc
    refine ⟨?_, by decide⟩
    cases hs : w.sharpOk <;>
      simp [callGemma3Vision, callGemma3VisionBody, optimizeImage,
        convertImageToBase64, gemmaCatch, hh, ha, hr, hg, hc, hs]
  · intro e hg hc
    refine ⟨?_, by decide⟩
    have hc' : e.code ≠ some "ECONNREFUSED" := by
      rw [hc]; decide
    cases hs : w.sharpOk <;>
      simp [callGemma3Vision, callGemma3VisionBody, optimizeImage,
        convertImageToBase64, gemmaCatch, hh, ha, hr, hg, hc, hc', hs]
  · intro hg
    refine ⟨?_, by decide⟩
    cases hs : w.sharpOk <;>
      simp [callGemma3Vision, callGemma3VisionBody, optimizeImage,
        convertImageToBase64, gemmaCatch, hh, ha, hr, hg, hs]
  · intro e hg hc1 hc2
    cases hs : w.sharpOk <;>
      simp [callGemma3Vision, callGemma3VisionBody, optimizeImage,
        convertImageToBase64, gemmaCatch, hh, ha, hr, hg, hc1, hc2, hs]

/-- Witness for C6, one concrete run per branch of the taxonomy. -/
theorem inference_error_taxonomy_witness :
    ((callGemma3Vision { okWorld with generateResult := .error ⟨"connect ECONNREFUSED", some "ECONNREFUSED"⟩ }
        "./uploads/u1.png" DEFAULT_PROMPT).1 = .error
      ⟨"Cannot connect to Ollama. Make sure Ollama is running on port 11434", none⟩) ∧
    ((callGemma3Vision timeoutWorld "./uploads/u1.png" DEFAULT_PROMPT).1 = .error
      ⟨"Analysis timed out. Try with a smaller image or simpler prompt", none⟩) ∧
    ((callGemma3Vision { okWorld with generateResult := .ok none }
        "./uploads/u1.png" DEFAULT_PROMPT).1 = .error
      ⟨"Gemma3 analysis failed: Invalid response from Ollama", none⟩) ∧
    ((callGemma3Vision { okWorld with generateResult := .error ⟨"socket hang up", none⟩ }
        "./uploads/u1.png" DEFAULT_PROMPT).1 = .error
      ⟨"Gemma3 analysis failed: socket hang up", none⟩) :=
  ⟨((inference_error_taxonomy
      { okWorld with generateResult := .error ⟨"connect ECONNREFUSED", some "ECONNREFUSED"⟩ }
      "./uploads/u1.png" DEFAULT_PROMPT (by decide) (by decide) (by decide)).1
      ⟨"connect ECONNREFUSED", some "ECONNREFUSED"⟩ rfl rfl).1,
   ((inference_error_taxonomy timeoutWorld "./uploads/u1.png" DEFAULT_PROMPT
      (by decide) (by decide) (by decide)).2.1
      ⟨"timeout of 120000ms exceeded", some "ETIMEDOUT"⟩ rfl rfl).1,
   ((inference_error_taxonomy { okWorld with generateResult := .ok none }
      "./uploads/u1.png" DEFAULT_PROMPT (by decide) (by decide) (by decide)).2.2.1
      rfl).1,
   (inference_error_taxonomy { okWorld with generateResult := .error ⟨"socket hang up", none⟩ }
      "./uploads/u1.png" DEFAULT_PROMPT (by decide) (by decide) (by decide)).2.2.2
      ⟨"socket hang up", none⟩ rfl (by decide) (by decide)⟩

/-- A model listing whose only entry contains the requested base name as a
proper substring, not as a prefix. -/
def substringWorld : World :=
  { okWorld with tagsResponse := some (some [⟨"xgemma3"⟩]) }

/-- C8 counterexample: the claim says a listing entry matches the
requested model's base name **as a prefix**.  The source tests
`model.name.includes(base)` — substring containment — so the entry
`"xgemma3"` makes `checkModelAvailability` answer `true` for
`"gemma3:4b"` although `"gemma3"` is not a prefix of `"xgemma3"` and the
prefix-matching reading answers `false`. -/
theorem model_availability_prefix_counterexample :
    checkModelAvailability substringWorld "gemma3:4b" = true ∧
    checkModelAvailabilitySpecPrefix substringWorld "gemma3:4b" = false := by
  decide

/-- C8 amended: `checkModelAvailability` returns `true` exactly when some
entry of the backend's model listing **contains** the requested model's
base name (the part before `:`) as a substring, and returns `false` on
any network failure, never throwing. -/
theorem model_availability_substring_match (w : World) (modelName : String) :
    (checkModelAvailability w modelName = true ↔
      ∃ m ∈ worldModels w, (splitColonHead modelName).data <:+: m.name.data) ∧
    (w.tagsResponse = none → checkModelAvailability w modelName = false) := by
  constructor
  · cases ht : w.tagsResponse with
    | none => simp [checkModelAvailability, worldModels, ht]
    | some data =>
        simp [checkModelAvailability, worldModels, ht, jsIncludes, List.any_eq_true]
  · intro h
    simp [checkModelAvailability, h]

/-- Witness for C8's amended claim: the substring world does list a
matching entry, and a network failure yields `false`. -/
theorem model_availability_substring_match_witness :
    (∃ m ∈ worldModels substringWorld, (splitColonHead "gemma3:4b").data <:+: m.name.data) ∧
    checkModelAvailability downWorld "gemma3:4b" = false :=
  ⟨(model_availability_substring_match substringWorld "gemma3:4b").1.mp (by decide),
   (model_availability_substring_match downWorld "gemma3:4b").2 rfl⟩

/-- C9 counterexample: the claim says a **blank** prompt falls back to the
default.  The source's `req.body.prompt || default` only replaces falsy
strings, i.e. the empty string: a whitespace-only prompt `" "` is passed
to the generate call verbatim, and the default prompt is never used. -/
theorem blank_prompt_counterexample :
    Event.generateCall " " ∈ (analyzeImage okWorld (some file1) (some " ")).2 ∧
    Event.generateCall DEFAULT_PROMPT ∉ (analyzeImage okWorld (some file1) (some " ")).2 := by
  decide

/-- C9 amended: in both the single-image and batch endpoints, a request
whose prompt is absent or **empty** behaves exactly as one carrying the
fixed default prompt. -/
theorem default_prompt_on_absent_or_empty (w : World) (f : UploadedFile)
    (p : Option String) (items : List (UploadedFile × World))
    (h : p = none ∨ p = some "") :
    analyzeImage w (some f) p = analyzeImage w (some f) (some DEFAULT_PROMPT) ∧
    batchAnalyze items p = batchAnalyze items (some DEFAULT_PROMPT) := by
  have hd : promptOrDefault (some DEFAULT_PROMPT) = DEFAULT_PROMPT := by decide
  have hp : promptOrDefault p = promptOrDefault (some DEFAULT_PROMPT) := by
    rcases h with h | h <;> subst h <;> rw [hd] <;> rfl
  constructor
  · simp only [analyzeImage, hp]
  · cases items <;> simp only [batchAnalyze, hp]

/-- Witness for C9's amended claim at an absent prompt. -/
theorem default_prompt_on_absent_or_empty_witness :
    analyzeImage okWorld (some file1) none
      = analyzeImage okWorld (some file1) (some DEFAULT_PROMPT) ∧
    batchAnalyze [(file1, okWorld)] none
      = batchAnalyze [(file1, okWorld)] (some DEFAULT_PROMPT) :=
  default_prompt_on_absent_or_empty okWorld file1 none [(file1, okWorld)] (Or.inl rfl)

/-! ### Batch-loop structure lemmas -/

/-- Unfolding one iteration of the batch loop. -/
theorem batchLoop_cons (f : UploadedFile) (w : World)
    (rest : List (UploadedFile × World)) (prompt : String) :
    batchLoop ((f, w) :: rest) prompt =
      ((processItem w prompt f).1 :: (batchLoop rest prompt).1,
       (processItem w prompt f).2 ++ (batchLoop rest prompt).2) := rfl

/-- Every outcome carries the client-side filename of its item, on both
the success and the failure branch. -/
theorem processItem_filename (w : World) (prompt : String) (f : UploadedFile) :
    (processItem w prompt f).1.filename = f.originalname := by
  rcases hX : callGemma3Vision w f.path prompt with ⟨res, tr⟩
  cases res <;> simp [processItem, hX]

/-- An item whose analysis throws produces the failed outcome carrying the
error's message, and its trace is the analysis trace followed by the
`finally` unlink of the staged file. -/
theorem processItem_error (w : World) (prompt : String) (f : UploadedFile)
    (e : JsError) (h : (callGemma3Vision w f.path prompt).1 = .error e) :
    processItem w prompt f =
      (⟨false, f.originalname, none, some e.message⟩,
       (callGemma3Vision w f.path prompt).2 ++ [Event.unlink f.path]) := by
  rcases hX : callGemma3Vision w f.path prompt with ⟨res, tr⟩
  rw [hX] at h
  simp only at h
  subst h
  simp [processItem, hX]

/-- The loop yields one outcome per submitted item. -/
theorem batchLoop_length (items : List (UploadedFile × World)) (prompt : String) :
    (batchLoop items prompt).1.length = items.length := by
  induction items with
  | nil => rfl
  | cons it rest ih =>
      rcases it with ⟨f, w⟩
      simp [batchLoop_cons, ih]

/-- Outcome order matches submission order: the i-th outcome's filename is
the i-th submitted file's name. -/
theorem batchLoop_filenames (items : List (UploadedFile × World)) (prompt : String) :
    (batchLoop items prompt).1.map (fun r => r.filename)
      = items.map (fun it => it.1.originalname) := by
  induction items with
  | nil => rfl
  | cons it rest ih =>
      rcases it with ⟨f, w⟩
      simp [batchLoop_cons, ih, processItem_filename]

/-- C3: on a non-empty list of N submitted requests, the batch endpoint
produces exactly N outcomes whose order matches submission order, and the
aggregate counts satisfy `total = N` and `successful + failed = N`. -/
theorem batch_outcome_counts (items : List (UploadedFile × World))
    (p : Option String) (h : items ≠ []) :
    batchAnalyze items p =
      (.ok true (batchLoop items (promptOrDefault p)).1
        ⟨items.length,
         ((batchLoop items (promptOrDefault p)).1.filter (fun r => r.success)).length,
         items.length -
           ((batchLoop items (promptOrDefault p)).1.filter (fun r => r.success)).length⟩,
       (batchLoop items (promptOrDefault p)).2) ∧
    (batchLoop items (promptOrDefault p)).1.length = items.length ∧
    (batchLoop items (promptOrDefault p)).1.map (fun r => r.filename)
      = items.map (fun it => it.1.originalname) ∧
    ((batchLoop items (promptOrDefault p)).1.filter (fun r => r.success)).length
      + (items.length
          - ((batchLoop items (promptOrDefault p)).1.filter (fun r => r.success)).length)
      = items.length := by
  refine ⟨?_, batchLoop_length items _, batchLoop_filenames items _, ?_⟩
  · cases items with
    | nil => exact absurd rfl h
    | cons it rest => rfl
  · exact Nat.add_sub_cancel' (by
      calc ((batchLoop items (promptOrDefault p)).1.filter (fun r => r.success)).length
          ≤ (batchLoop items (promptOrDefault p)).1.length :=
            List.length_filter_le _ _
        _ = items.length := batchLoop_length items _)

/-- Second staged upload fixture. -/
def file2 : UploadedFile := ⟨"./uploads/u2.jpg", "draft.jpg", 4096⟩

/-- Third staged upload fixture. -/
def file3 : UploadedFile := ⟨"./uploads/u3.gif", "sketch.gif", 512⟩

/-- Witness for C3: a three-item batch whose middle item times out. -/
theorem batch_outcome_counts_witness :
    batchAnalyze [(file1, okWorld), (file2, timeoutWorld), (file3, okWorld)] none =
      (.ok true
        (batchLoop [(file1, okWorld), (file2, timeoutWorld), (file3, okWorld)]
          (promptOrDefault none)).1
        ⟨3,
         ((batchLoop [(file1, okWorld), (file2, timeoutWorld), (file3, okWorld)]
            (promptOrDefault none)).1.filter (fun r => r.success)).length,
         3 - ((batchLoop [(file1, okWorld), (file2, timeoutWorld), (file3, okWorld)]
            (promptOrDefault none)).1.filter (fun r => r.success)).length⟩,
       (batchLoop [(file1, okWorld), (file2, timeoutWorld), (file3, okWorld)]
          (promptOrDefault none)).2) ∧
    (batchLoop [(file1, okWorld), (file2, timeoutWorld), (file3, okWorld)]
        (promptOrDefault none)).1.length = 3 ∧
    (batchLoop [(file1, okWorld), (file2, timeoutWorld), (file3, okWorld)]
        (promptOrDefault none)).1.map (fun r => r.filename)
      = ["note.png", "draft.jpg", "sketch.gif"] ∧
    ((batchLoop [(file1, okWorld), (file2, timeoutWorld), (file3, okWorld)]
        (promptOrDefault none)).1.filter (fun r => r.success)).length
      + (3 - ((batchLoop [(file1, okWorld), (file2, timeoutWorld), (file3, okWorld)]
          (promptOrDefault none)).1.filter (fun r => r.success)).length) = 3 := by
  have h := batch_outcome_counts [(file1, okWorld), (file2, timeoutWorld), (file3, okWorld)]
    none (List.cons_ne_nil _ _)
  exact ⟨h.1, h.2.1, by decide, h.2.2.2⟩

/-- C4: an error thrown while analyzing one batch item is caught at that
item's boundary and becomes a failed outcome carrying the error's message;
the items before and after it are still processed in order, and the failed
item's staged file is unlinked within that item's own trace segment —
before any event of the subsequent items. -/
theorem batch_item_failure_isolated (pre post : List (UploadedFile × World))
    (f : UploadedFile) (w : World) (prompt : String) (e : JsError)
    (h : (callGemma3Vision w f.path prompt).1 = .error e) :
    batchLoop (pre ++ (f, w) :: post) prompt =
      ((batchLoop pre prompt).1
        ++ ⟨false, f.originalname, none, some e.message⟩ :: (batchLoop post prompt).1,
       (batchLoop pre prompt).2
        ++ ((callGemma3Vision w f.path prompt).2 ++ [Event.unlink f.path])
        ++ (batchLoop post prompt).2) := by
  induction pre with
  | nil =>
      simp [batchLoop, batchLoop_cons, processItem_error w prompt f e h]
  | cons it rest ih =>
      rcases it with ⟨g, v⟩
      simp [List.cons_append, batchLoop_cons, ih, List.append_assoc]

/-- Witness for C4: middle item of three times out; the batch still yields
all three outcomes with the failure recorded in place and the failed
item's unlink sitting between its own analysis trace and item three. -/
theorem batch_item_failure_isolated_witness :
    batchLoop [(file1, okWorld), (file2, timeoutWorld), (file3, okWorld)] DEFAULT_PROMPT =
      ((batchLoop [(file1, okWorld)] DEFAULT_PROMPT).1
        ++ ⟨false, "draft.jpg", none,
             some "Analysis timed out. Try with a smaller image or simpler prompt"⟩
          :: (batchLoop [(file3, okWorld)] DEFAULT_PROMPT).1,
       (batchLoop [(file1, okWorld)] DEFAULT_PROMPT).2
        ++ ((callGemma3Vision timeoutWorld "./uploads/u2.jpg" DEFAULT_PROMPT).2
            ++ [Event.unlink "./uploads/u2.jpg"])
        ++ (batchLoop [(file3, okWorld)] DEFAULT_PROMPT).2) :=
  batch_item_failure_isolated [(file1, okWorld)] [(file3, okWorld)] file2 timeoutWorld
    DEFAULT_PROMPT
    ⟨"Analysis timed out. Try with a smaller image or simpler prompt", none⟩
    rfl

/-- C10: whenever the per-item loop completes on a non-empty batch, the
response has HTTP status 200 and a top-level `success` flag that is
`true`, whatever the per-item outcomes are; no whole-batch 500 arises
from per-item failures. -/
theorem batch_http_success_even_when_items_fail
    (items : List (UploadedFile × World)) (p : Option String) (h : items ≠ []) :
    ((batchAnalyze items p).1).status = 200 ∧
    ∃ results summary, (batchAnalyze items p).1 = .ok true results summary := by
  cases items with
  | nil => exact absurd rfl h
  | cons it rest => exact ⟨rfl, _, _, rfl⟩

/-- Witness for C10: a two-item batch where both items fail (timeout and
backend down) still answers 200 with top-level `success = true`. -/
theorem batch_http_success_even_when_items_fail_witness :
    ((batchAnalyze [(file1, timeoutWorld), (file2, downWorld)] none).1).status = 200 ∧
    (∃ results summary,
      (batchAnalyze [(file1, timeoutWorld), (file2, downWorld)] none).1
        = .ok true results summary) ∧
    ((batchLoop [(file1, timeoutWorld), (file2, downWorld)] DEFAULT_PROMPT).1.all
      (fun r => !r.success)) = true := by
  have h := batch_http_success_even_when_items_fail
    [(file1, timeoutWorld), (file2, downWorld)] none (List.cons_ne_nil _ _)
  exact ⟨h.1, h.2, by decide⟩

/-- C7: an uploaded file whose byte size exceeds the configured maximum is
answered with the validation error and HTTP 400 while no temporary file is
ever created for it, and a file with a disallowed extension likewise
stages no artifact. -/
theorem oversize_upload_rejected_before_staging (w : World) (name : String)
    (size : Nat) (path : String) (pr : Option String) :
    (MAX_FILE_SIZE < size →
      ALLOWED_EXTENSIONS.contains (lowerString (extname name)) = true →
      analyzeImageRequest w name size path pr =
        (.err 400 "File too large. Maximum size is 16MB", []) ∧
      errKindOfMessage "File too large. Maximum size is 16MB" = .validation) ∧
    (ALLOWED_EXTENSIONS.contains (lowerString (extname name)) = false →
      (analyzeImageRequest w name size path pr).2 = []) := by
  constructor
  · intro hs he
    refine ⟨?_, by decide⟩
    have hle : ¬ size ≤ MAX_FILE_SIZE := Nat.not_le.mpr hs
    have he' : lowerString (extname name) ∈ ALLOWED_EXTENSIONS := by
      simpa using he
    have hm : errorMiddleware (.multer "LIMIT_FILE_SIZE" "File too large")
        = (400, "File too large. Maximum size is 16MB") := by decide
    simp [analyzeImageRequest, uploadSingle, he', hle, hm]
  · intro he
    have he' : lowerString (extname name) ∉ ALLOWED_EXTENSIONS := by
      simpa using he
    simp [analyzeImageRequest, uploadSingle, he']

/-- Witness for C7: a 16 MiB + 1 byte PNG is rejected with the 400
validation message and an empty trace; a `.txt` upload stages nothing. -/
theorem oversize_upload_rejected_before_staging_witness :
    (analyzeImageRequest okWorld "big.png" (MAX_FILE_SIZE + 1) "./uploads/x.png" none =
        (.err 400 "File too large. Maximum size is 16MB", []) ∧
      errKindOfMessage "File too large. Maximum size is 16MB" = .validation) ∧
    (analyzeImageRequest okWorld "doc.txt" 10 "./uploads/y.txt" none).2 = [] :=
  ⟨(oversize_upload_rejected_before_staging okWorld "big.png" (MAX_FILE_SIZE + 1)
      "./uploads/x.png" none).1 (Nat.lt_succ_self _) (by decide),
   (oversize_upload_rejected_before_staging okWorld "doc.txt" 10
      "./uploads/y.txt" none).2 (by decide)⟩

end NoteGraphee
